import Mathlib

/-!
Verification development for the Airbnb recommendation chat bot
(`app/bot/telegram_bot.py`, `app/services/airbnb_scraper.py`,
`app/models/database.py`).

The conversational core is embedded shallowly: Python `datetime` dates
become a `Date` structure ordered lexicographically, the inline-keyboard
callback tokens (`ignore`, `cal_<date>`, `nav_<year>_<month>`,
`amenity_<key>_toggle`, `amenities_done`, `feedback_<id>_<action>`)
become constructors of `CbData`, handlers become pure functions from the
per-user mutable state (`context.user_data`) and the inbound event to a
result record collecting the new state, the returned conversation state,
and the outbound effects.  Python numbers are modelled as `Nat`/`Int`,
Python floats as `ℚ` (every concrete value used below is exactly
representable), `int(x)` on a float as truncation toward zero.
-/

/-- Calendar date, mirroring the `datetime` values the bot manipulates
(times are always midnight here, so only year, month, day matter).
Comparison of `datetime` values is lexicographic on these fields. -/
structure Date where
  year : Nat
  month : Nat
  day : Nat
deriving DecidableEq, Repr

/-- Python `datetime` strict comparison `a < b` (lexicographic). -/
def Date.ltb (a b : Date) : Bool :=
  decide (a.year < b.year ∨ (a.year = b.year ∧
    (a.month < b.month ∨ (a.month = b.month ∧ a.day < b.day))))

/-- Python `datetime` comparison `a <= b` (lexicographic). -/
def Date.leb (a b : Date) : Bool :=
  decide (a.year < b.year ∨ (a.year = b.year ∧
    (a.month < b.month ∨ (a.month = b.month ∧ a.day ≤ b.day))))

/-- Gregorian leap-year test, as in Python's `calendar.isleap`. -/
def isLeapYear (y : Nat) : Bool :=
  y % 4 = 0 && (y % 100 ≠ 0 || y % 400 = 0)

/-- Days in a month, as in Python's `calendar.monthrange`. -/
def daysInMonth (y m : Nat) : Nat :=
  if m = 2 then (if isLeapYear y then 29 else 28)
  else if m = 4 ∨ m = 6 ∨ m = 9 ∨ m = 11 then 30
  else 31

/-- Days before January 1 of year `y` in the proleptic Gregorian
calendar (`datetime.date(y, 1, 1).toordinal() - 1`). -/
def daysBeforeYear (y : Nat) : Nat :=
  365 * (y - 1) + (y - 1) / 4 - (y - 1) / 100 + (y - 1) / 400

/-- Days of year `y` strictly before month `m`. -/
def daysBeforeMonth (y m : Nat) : Nat :=
  ((List.range (m - 1)).map (fun i => daysInMonth y (i + 1))).sum

/-- Proleptic Gregorian ordinal of a date (`datetime.toordinal`,
with `0001-01-01` mapped to `1`). -/
def Date.toOrdinal (d : Date) : Nat :=
  daysBeforeYear d.year + daysBeforeMonth d.year d.month + d.day

/-- Weekday of the first day of a month, `0` = Monday, as used by
Python's `calendar` module with its default `firstweekday = 0`.
Ordinal `1` (0001-01-01) is a Monday. -/
def firstWeekday (y m : Nat) : Nat :=
  (Date.toOrdinal ⟨y, m, 1⟩ - 1) % 7

/-- Python `calendar.monthcalendar(year, month)`: the weeks of the
month as rows of 7 day numbers, with `0` in cells that belong to a
neighbouring month.  Week rows run Monday to Sunday. -/
def monthcalendar (year month : Nat) : List (List Nat) :=
  let n := daysInMonth year month
  let w := firstWeekday year month
  let numWeeks := (w + n + 6) / 7
  (List.range numWeeks).map (fun i =>
    (List.range 7).map (fun j =>
      let k := 7 * i + j
      if k < w then 0 else if k - w < n then k - w + 1 else 0))

/-- Successor date, `d + timedelta(days=1)` for a valid date `d`. -/
def nextDay (d : Date) : Date :=
  if d.day < daysInMonth d.year d.month then ⟨d.year, d.month, d.day + 1⟩
  else if d.month < 12 then ⟨d.year, d.month + 1, 1⟩
  else ⟨d.year + 1, 1, 1⟩

/-- The structured content of a callback token attached to an inline
keyboard button (`callback_data` strings in the source; the chat
transport delivers them back verbatim, so they are modelled as values). -/
inductive CbData where
  | ignore
  | cal (d : Date)
  | nav (year month : Nat)
  | amenityToggle (key : String)
  | amenitiesDone
  | feedback (listingId : String) (action : String)
  | dummy
deriving DecidableEq, Repr

/-- An inline keyboard button: visible label plus callback token. -/
structure Button where
  text : String
  cb : CbData
deriving DecidableEq, Repr

/-- An inline keyboard: rows of buttons. -/
abbrev Keyboard := List (List Button)

/-- English month names, `calendar.month_name[m]` for `m` in 1..12. -/
def monthName (m : Nat) : String :=
  ["January", "February", "March", "April", "May", "June", "July",
   "August", "September", "October", "November", "December"].getD (m - 1) ""

/-- The `is_past` test of `AirbnbBot.create_calendar`: the displayed
day is in a year before the current one, or an earlier month of the
current year, or an earlier day of the current month. -/
def isPastDay (year month day : Nat) (today : Date) : Bool :=
  decide (year < today.year ∨ (year = today.year ∧ month < today.month) ∨
    (year = today.year ∧ month = today.month ∧ day < today.day))

/-- One day cell of the calendar keyboard.  `day = 0` is a blank cell
for a day outside the month; past days are disabled (label `✗`, ignore
token); other days are selectable and carry their concrete date, with a
check mark when `selected_date.day` matches the cell's day number. -/
def dayCell (year month : Nat) (selected : Option Date) (today : Date)
    (day : Nat) : Button :=
  if day = 0 then ⟨" ", CbData.ignore⟩
  else if isPastDay year month day today then ⟨"✗", CbData.ignore⟩
  else
    let marked := match selected with
      | some sd => decide (sd.day = day)
      | none => false
    ⟨if marked then "✓" ++ toString day else toString day,
     CbData.cal ⟨year, month, day⟩⟩

/-- `(prev_year, prev_month)` computed by `create_calendar`. -/
def prevYearMonth (year month : Nat) : Nat × Nat :=
  if month > 1 then (year, month - 1) else (year - 1, 12)

/-- `(next_year, next_month)` computed by `create_calendar`. -/
def nextYearMonth (year month : Nat) : Nat × Nat :=
  if month < 12 then (year, month + 1) else (year + 1, 1)

/-- The `can_go_prev` test of `create_calendar`: the previous month is
the current month or later. -/
def canGoPrev (year month : Nat) (today : Date) : Bool :=
  decide ((prevYearMonth year month).1 > today.year) ||
    (decide ((prevYearMonth year month).1 = today.year) &&
     decide ((prevYearMonth year month).2 ≥ today.month))

/-- The previous-month navigation cell: a real `nav` button when
allowed, otherwise a blank ignore button. -/
def prevButton (year month : Nat) (today : Date) : Button :=
  if canGoPrev year month today then
    ⟨"<<", CbData.nav (prevYearMonth year month).1 (prevYearMonth year month).2⟩
  else ⟨" ", CbData.ignore⟩

/-- The next-month navigation button, always present. -/
def nextButton (year month : Nat) : Button :=
  ⟨">>", CbData.nav (nextYearMonth year month).1 (nextYearMonth year month).2⟩

/-- The navigation footer row of the calendar keyboard. -/
def navRow (year month : Nat) (today : Date) : List Button :=
  [prevButton year month today, nextButton year month]

/-- The week-day header row of the calendar keyboard. -/
def weekDayRow : List Button :=
  ["Mo", "Tu", "We", "Th", "Fr", "Sa", "Su"].map (fun d => ⟨d, CbData.ignore⟩)

/-- `AirbnbBot.create_calendar(year, month, selected_date)`: the inline
calendar keyboard.  The source reads `today = datetime.now()` inside the
function; here `today` is an explicit parameter held fixed for the
session.  Header row, week-day row, one row per `monthcalendar` week,
then the navigation row. -/
def create_calendar (year month : Nat) (selected : Option Date)
    (today : Date) : Keyboard :=
  [[⟨monthName month ++ " " ++ toString year, CbData.ignore⟩]] ++
  [weekDayRow] ++
  (monthcalendar year month).map (fun week =>
    week.map (dayCell year month selected today)) ++
  [navRow year month today]

/-- Projection of a button to its navigation target, if any. -/
def navOf (b : Button) : Option (Nat × Nat) :=
  match b.cb with
  | CbData.nav y m => some (y, m)
  | _ => none

/-- Projection of a button to its date-selection payload, if any. -/
def calOf (b : Button) : Option Date :=
  match b.cb with
  | CbData.cal d => some d
  | _ => none

/-- All `(year, month)` navigation targets present in a keyboard. -/
def navTargetsOf (kb : Keyboard) : List (Nat × Nat) :=
  kb.flatten.filterMap navOf

/-- All selectable dates present in a keyboard. -/
def calTargetsOf (kb : Keyboard) : List Date :=
  kb.flatten.filterMap calOf

/-- Strict ordering on `(year, month)` pairs: the first month is
strictly before the second. -/
def monthLt (a b : Nat × Nat) : Prop :=
  a.1 < b.1 ∨ (a.1 = b.1 ∧ a.2 < b.2)

instance (a b : Nat × Nat) : Decidable (monthLt a b) := by
  unfold monthLt; exact inferInstance

/-- Conversation states of the search wizard, mirroring the handler
constants `LOCATION .. PRICE_RANGE` and `ConversationHandler.END`
(called `Completed` in the design documents). -/
inductive ConvState where
  | location
  | selectCheckin
  | selectCheckout
  | guests
  | amenities
  | priceRange
  | finished
deriving DecidableEq, Repr

/-- The per-user mutable dictionary `context.user_data`, with one field
per key the bot stores.  The source keeps the amenity selection under a
single key first as a `set` and, after `amenities_done`, as a `list`;
here the two phases are two fields. -/
structure UserData where
  location : Option String := none
  checkin_date : Option Date := none
  checkout_date : Option Date := none
  dates : Option String := none
  guests : Option Int := none
  selected_amenities : Option (Finset String) := none
  selected_amenities_list : Option (List String) := none
  calendar_state : Option ConvState := none
deriving DecidableEq

/-- Calendar events that reach `AirbnbBot.handle_calendar` (callback
tokens matching `^nav|^cal`, plus `ignore`). -/
inductive CalEvent where
  | ignore
  | nav (year month : Nat)
  | cal (d : Date)
deriving DecidableEq

/-- Result of one `handle_calendar` invocation: the updated user data,
the conversation state the handler returns (`none` models the bare
`return`, which leaves the conversation state unchanged), the keyboard
it renders (via `edit_reply_markup` or `edit_text`) if any, the alert
it raises via `query.answer(..., show_alert=True)` if any, and the
plain messages it sends. -/
structure CalResult where
  ud : UserData
  next : Option ConvState
  markup : Option Keyboard
  alert : Option String
  messages : List String
deriving DecidableEq

/-- Alert text used when a check-out selection is rejected. -/
def checkoutAlertMsg : String := "Please select a date after check-in"

/-- Zero-padded day/month as in `strftime` output. -/
def pad2 (n : Nat) : String :=
  if n < 10 then "0" ++ toString n else toString n

/-- `d.strftime(\x22%Y-%m-%d\x22)`. -/
def dateStr (d : Date) : String :=
  toString d.year ++ "-" ++ pad2 d.month ++ "-" ++ pad2 d.day

/-- `AirbnbBot.handle_calendar`.  `ignore` does nothing; `nav` renders
the requested month and returns the stored `calendar_state` (defaulting
to check-in); `cal` records the check-in date and shows the check-out
calendar starting the next day when no check-in exists yet, otherwise
rejects any date at or before check-in with an alert and records the
check-out date when the selection is strictly later. -/
def handle_calendar (today : Date) (ud : UserData) (ev : CalEvent) : CalResult :=
  match ev with
  | CalEvent.ignore => ⟨ud, none, none, none, []⟩
  | CalEvent.nav y m =>
      ⟨ud, some (ud.calendar_state.getD ConvState.selectCheckin),
       some (create_calendar y m none today), none, []⟩
  | CalEvent.cal d =>
      match ud.checkin_date with
      | none =>
          let nd := nextDay d
          ⟨{ ud with checkin_date := some d,
                     calendar_state := some ConvState.selectCheckout },
           some ConvState.selectCheckout,
           some (create_calendar nd.year nd.month none today), none,
           ["Check-in: " ++ dateStr d ++ " Select check-out date:"]⟩
      | some d0 =>
          if d.leb d0 then
            ⟨ud, some ConvState.selectCheckout, none, some checkoutAlertMsg, []⟩
          else
            ⟨{ ud with checkout_date := some d,
                       dates := some (dateStr d0 ++ " to " ++ dateStr d) },
             some ConvState.guests, none, none,
             ["Dates selected Check-in: " ++ dateStr d0 ++ " Check-out: " ++ dateStr d,
              "How many guests will be staying?"]⟩

/-- The `(year, month)` pairs of calendar keyboards a session can
display, with `today` held fixed: the first calendar shows the current
month; pressing a navigation button of a displayed keyboard shows its
target month; selecting an enabled check-in date `d` shows the month of
`d + 1 day`. -/
inductive reachableCalendar (today : Date) : Nat × Nat → Prop where
  | init : reachableCalendar today (today.year, today.month)
  | nav : ∀ {p q : Nat × Nat}, reachableCalendar today p →
      q ∈ navTargetsOf (create_calendar p.1 p.2 none today) →
      reachableCalendar today q
  | select : ∀ {p : Nat × Nat} {d : Date}, reachableCalendar today p →
      d ∈ calTargetsOf (create_calendar p.1 p.2 none today) →
      reachableCalendar today ((nextDay d).year, (nextDay d).month)

/-- Toggle of one amenity key in the selection set, as in
`AirbnbBot.amenity_callback`: remove the key when present, insert it
otherwise. -/
def toggleAmenity (s : Finset String) (key : String) : Finset String :=
  if key ∈ s then s.erase key else insert key s

/-- Events dispatched to `amenity_callback` while in the amenities
state: the done button, a well-formed toggle token, or anything else
(acknowledged as a no-op). -/
inductive AmenityEvent where
  | done
  | toggle (key : String)
  | other
deriving DecidableEq

/-- `AirbnbBot.amenity_callback`, acting on the current selection
(`context.user_data['selected_amenities']`, initialised to the empty
set when absent).  Returns the new selection and the conversation state
the handler returns. -/
def amenity_callback (sel : Option (Finset String)) (ev : AmenityEvent) :
    Finset String × ConvState :=
  let s := sel.getD ∅
  match ev with
  | AmenityEvent.done => (s, ConvState.priceRange)
  | AmenityEvent.toggle key => (toggleAmenity s key, ConvState.amenities)
  | AmenityEvent.other => (s, ConvState.amenities)

/-- Characters Python's `str.strip()` removes by default. -/
def isPySpace (c : Char) : Bool :=
  c = ' ' || c = '\t' || c = '\n' || c = '\r' || c = '\x0b' || c = '\x0c'

/-- Python `s.strip()` on the characters of a string. -/
def pyStrip (s : String) : String :=
  String.mk (((s.toList.dropWhile isPySpace).reverse.dropWhile isPySpace).reverse)

/-- Python `sep in s` for a single character. -/
def pyContains (s : String) (sep : Char) : Bool :=
  s.toList.contains sep

/-- Splitting a character list at every occurrence of a separator
(Python `str.split(sep)` semantics: adjacent separators yield empty
pieces). -/
def splitCharAux (sep : Char) : List Char → List Char → List (List Char)
  | [], acc => [acc.reverse]
  | c :: cs, acc =>
      if c = sep then acc.reverse :: splitCharAux sep cs []
      else splitCharAux sep cs (c :: acc)

/-- Python `s.split(sep)` for a one-character separator. -/
def pySplit (s : String) (sep : Char) : List String :=
  (splitCharAux sep s.toList []).map String.mk

/-- Digit run to a number, `none` when empty or not all digits. -/
def digitsToNat (cs : List Char) : Option Nat :=
  if cs = [] then none
  else if cs.all Char.isDigit then
    some (cs.foldl (fun a c => 10 * a + (c.toNat - 48)) 0)
  else none

/-- Python `int(s)` restricted to optional surrounding whitespace, an
optional sign and decimal digits (no underscore grouping, which never
occurs in the inputs the bot sees); `none` models `ValueError`. -/
def pyInt (s : String) : Option Int :=
  match (pyStrip s).toList with
  | '+' :: rest => (digitsToNat rest).map Int.ofNat
  | '-' :: rest => (digitsToNat rest).map (fun n => -(n : Int))
  | cs => (digitsToNat cs).map Int.ofNat

/-- Python `float(s)` restricted to optional surrounding whitespace, an
optional sign and a decimal literal `digits`, `digits.`, `.digits` or
`digits.digits` (sufficient for the dollar amounts in API responses);
`none` models `ValueError`.  The value is returned as an exact
rational. -/
def pyFloat (s : String) : Option ℚ :=
  let core : List Char → Option ℚ := fun cs =>
    match (splitCharAux '.' cs []).map id with
    | [as] => (digitsToNat as).map (fun n => (n : ℚ))
    | [as, bs] =>
        if as = [] ∧ bs = [] then none
        else if as.all Char.isDigit ∧ bs.all Char.isDigit then
          let ip : Nat := as.foldl (fun a c => 10 * a + (c.toNat - 48)) 0
          let fp : Nat := bs.foldl (fun a c => 10 * a + (c.toNat - 48)) 0
          some (mkRat (ip * 10 ^ bs.length + fp) (10 ^ bs.length))
        else none
    | _ => none
  match (pyStrip s).toList with
  | '+' :: rest => core rest
  | '-' :: rest => (core rest).map Neg.neg
  | cs => core cs

/-- Python `int(x)` on a float: truncation toward zero.  Implemented as
truncating integer division of the exact rational's numerator by its
denominator. -/
def pyTrunc (q : ℚ) : Int :=
  q.num.tdiv (q.den : Int)

/-- One entry of the `priceItems` array of an API price object; only
its `title` is read. -/
structure PriceItem where
  title : String
deriving DecidableEq

/-- The `price` object of an API listing, as far as the parser reads
it.  A missing `priceItems` key and an empty array are both falsy in
the source and behave identically, so only the list is kept. -/
structure PriceData where
  priceItems : List PriceItem
deriving DecidableEq

/-- One raw listing item of the API response, restricted to the keys
`AirbnbAPI.search_listings` reads.  Absent keys are `none`. -/
structure Item where
  id : Option String := none
  name : Option String := none
  price : Option PriceData := none
  rating : Option ℚ := none
  reviewsCount : Option Int := none
  city : Option String := none
  country : Option String := none
  bedrooms : Option ℚ := none
  bathrooms : Option ℚ := none
  maxGuests : Option Int := none
  persons : Option Int := none
  previewAmenities : List String := []
deriving DecidableEq

/-- `AirbnbAPI._parse_price`: requires a price object with a non-empty
`priceItems` whose first title contains both a dollar sign and an `x`;
the substring between the first `$` and the next `x` after it, stripped,
is parsed as a float and truncated to an integer.  Every failure path
returns `none` (the caller then skips the listing). -/
def parse_price (price_data : Option PriceData) : Option Int :=
  match price_data with
  | none => none
  | some pd =>
      if pd.priceItems ≠ [] then
        let title := ((pd.priceItems.head?).map PriceItem.title).getD ""
        if pyContains title '$' && pyContains title 'x' then
          let afterDollar := (pySplit title '$').getD 1 ""
          let beforeX := ((pySplit afterDollar 'x').headD "")
          (pyFloat (pyStrip beforeX)).map pyTrunc
        else none
      else none

/-- A normalized listing as built in the loop of
`AirbnbAPI.search_listings`. -/
structure Listing where
  title : String
  price : Int
  rating : ℚ
  reviews : Int
  location : String
  url : String
  bedrooms : ℚ
  bathrooms : ℚ
  max_guests : Int
  amenities : List String
deriving DecidableEq

/-- Normalization of one raw item: `none` exactly when its price cannot
be parsed (the item is skipped with only a log line); otherwise the
typed listing, with absent optional fields defaulted as in the source
(`item.get(..., 0) or 0` chains). -/
def normalizeItem (location : String) (it : Item) : Option Listing :=
  match parse_price it.price with
  | none => none
  | some p =>
      some
        { title := it.name.getD ""
          price := p
          rating := it.rating.getD 0
          reviews := it.reviewsCount.getD 0
          location :=
            let s := pyStrip ((it.city.getD "") ++ " " ++ (it.country.getD ""))
            if s = "" then location else s
          url := "https://www.airbnb.com/rooms/" ++ it.id.getD "None"
          bedrooms := it.bedrooms.getD 0
          bathrooms := it.bathrooms.getD 0
          max_guests :=
            let mg := it.maxGuests.getD 0
            if mg ≠ 0 then mg else it.persons.getD 0
          amenities := it.previewAmenities }

/-- The normalized listings of a result array, in response order;
items with unparseable prices are dropped. -/
def listingsOf (location : String) (items : List Item) : List Listing :=
  items.filterMap (normalizeItem location)

/-- The sort key comparison of `listings.sort(key=lambda x: x[\x22price\x22])`. -/
def priceLe (a b : Listing) : Bool :=
  decide (a.price ≤ b.price)

/-- Tail of `AirbnbAPI.search_listings` on a decoded result array:
empty results short-circuit to an empty list, otherwise the normalized
listings are sorted ascending by price and capped at the first 5. -/
def search_results (location : String) (results : List Item) : List Listing :=
  if results = [] then []
  else ((listingsOf location results).mergeSort priceLe).take 5

/-- Decoded body of the listings HTTP response: either undecodable JSON
or a JSON object whose `results` key holds the item array (a missing
key defaults to the empty array). -/
inductive RespBody where
  | badJson
  | ok (results : List Item)
deriving DecidableEq

/-- Outcome of the `requests.get` call: the request raises (timeout,
connection failure, ...) or returns a response with a status code and
body. -/
inductive SearchWire where
  | raises
  | status (code : Nat) (body : RespBody)
deriving DecidableEq

/-- `AirbnbAPI.search_listings` as a function of the collaborator
outcome: every failure (exception, non-200 status, undecodable body) is
caught, logged and collapsed to the empty list; a decoded response goes
through normalization, sorting and the top-5 cap. -/
def search_listings (location : String) (wire : SearchWire) : List Listing :=
  match wire with
  | SearchWire.raises => []
  | SearchWire.status code body =>
      if code ≠ 200 then []
      else
        match body with
        | RespBody.badJson => []
        | RespBody.ok results => search_results location results

/-- The price-text parser of `AirbnbBot.price_range`: text without a
dash is a single integer, read as the maximum with minimum 0; text with
a dash must split into exactly two integer parts (the tuple unpacking
of `map(int, ...)` raises on any other arity); every `ValueError` path
yields `none` and a re-prompt. -/
def parsePriceText (text : String) : Option (Int × Int) :=
  if pyContains text '-' = false then
    (pyInt text).map (fun mx => ((0 : Int), mx))
  else
    match pySplit text '-' with
    | [a, b] =>
        match pyInt a, pyInt b with
        | some mn, some mx => some (mn, mx)
        | _, _ => none
    | _ => none

/-- The completed search criteria available in `context.user_data` when
the conversation is in the price-range state (every earlier wizard step
has filled its field). -/
structure Criteria where
  location : String
  checkin : Date
  checkout : Date
  guests : Int
  amenities : List String
deriving DecidableEq

/-- Message sent when the search yields no listings. -/
def noResultsMsg : String :=
  "Sorry, no properties found matching your criteria. Use /search to start a new search."

/-- Re-prompt sent on malformed price input. -/
def priceRepromptMsg : String :=
  "Please enter a valid number or range (e.g. 100-200)"

/-- Rendering of one listing message (title, price and details; the
exact Markdown is cosmetic). -/
def listingMessage (l : Listing) : String :=
  l.title ++ " $" ++ toString l.price ++ " per night " ++ l.location

/-- The closing summary message of a successful search. -/
def summaryMessage (c : Criteria) (mn mx : Int) : String :=
  "Location: " ++ c.location ++ " Dates: " ++ dateStr c.checkin ++ " to " ++
    dateStr c.checkout ++ " Guests: " ++ toString c.guests ++
    " Price Range: $" ++ toString mn ++ "-" ++ toString mx

/-- `AirbnbBot.price_range`: parse the price text (malformed input
re-prompts and stays in the price-range state), run the search, and
end the conversation (`ConversationHandler.END`) both when no listings
were found and when listings are shown.  Returns the conversation state
the handler returns together with the messages sent. -/
def price_range_step (c : Criteria) (text : String) (wire : SearchWire) :
    ConvState × List String :=
  match parsePriceText text with
  | none => (ConvState.priceRange, [priceRepromptMsg])
  | some (mn, mx) =>
      let listings := search_listings c.location wire
      if listings = [] then (ConvState.finished, [noResultsMsg])
      else
        (ConvState.finished,
         ["Found " ++ toString listings.length ++ " properties"] ++
           listings.map listingMessage ++ [summaryMessage c mn mx])

/-- The feedback feature dictionary built in
`AirbnbBot.handle_listing_feedback` (`feedback_data`): the listing id
plus float/int coercions of the cached listing's features.  The cached
listing dictionaries produced by the scraper carry no
`location_score`, `cleanliness_score` or `value_score` keys, so those
default to 0. -/
structure FeedbackData where
  id : String
  price : ℚ
  bedrooms : Int
  bathrooms : ℚ
  rating : ℚ
  location_score : ℚ
  cleanliness_score : ℚ
  value_score : ℚ
deriving DecidableEq

/-- Construction of `feedback_data` from the cached listing snapshot:
`price` and `bathrooms` via `float(...)` (exact), `bedrooms` via
`int(...)` (truncation toward zero). -/
def buildFeedbackData (listingId : String) (l : Listing) : FeedbackData :=
  { id := listingId
    price := (l.price : ℚ)
    bedrooms := pyTrunc l.bedrooms
    bathrooms := l.bathrooms
    rating := l.rating
    location_score := 0
    cleanliness_score := 0
    value_score := 0 }

/-- A persisted `listing_feedback` row.  The schema declares `bedrooms`
and `bathrooms` as `Integer` columns and the float columns hold the
given values exactly. -/
structure ListingFeedback where
  user_id : Nat
  listing_id : String
  liked : Bool
  price : ℚ
  bedrooms : Int
  bathrooms : Int
  rating : ℚ
  location_score : ℚ
  cleanliness_score : ℚ
  value_score : ℚ
deriving DecidableEq

/-- `ListingFeedback.from_listing` of `app/models/database.py`: copies
the feature values out of the feedback dictionary into a new row,
coercing `bedrooms` and `bathrooms` with `int(...)` (truncation toward
zero; `bedrooms` is already an integer at this point).  The
`except` branch of the source (returning `None`) is unreachable for the
well-typed dictionaries built by the bot, which always carry an `id`. -/
def ListingFeedback.from_listing (fd : FeedbackData) (user_id : Nat)
    (liked : Bool) : ListingFeedback :=
  { user_id := user_id
    listing_id := fd.id
    liked := liked
    price := fd.price
    bedrooms := fd.bedrooms
    bathrooms := pyTrunc fd.bathrooms
    rating := fd.rating
    location_score := fd.location_score
    cleanliness_score := fd.cleanliness_score
    value_score := fd.value_score }

/-- Outcome of one `handle_listing_feedback` invocation: the replies
sent, the feedback rows written to the database, the incremental
updates fed to the recommendation model, and whether the like/dislike
buttons were replaced by the static rated indicator. -/
structure FeedbackResult where
  replies : List String
  records : List ListingFeedback
  modelUpdates : List (FeedbackData × Bool)
  rated : Bool
deriving DecidableEq

/-- Reply sent when the listing id is not in the session cache. -/
def listingNotFoundMsg : String :=
  "Sorry, I could not find the information for this listing. Please try searching again."

/-- Reply sent after successful feedback. -/
def feedbackThanksMsg : String :=
  "Thanks for your feedback! I will use this to improve your recommendations."

/-- `AirbnbBot.handle_listing_feedback` for a `feedback_<id>_<action>`
event: resolve the listing id against the session cache
(`context.user_data['listing_<id>']`); on a miss, reply with an
informational message and write nothing; on a hit, build the feature
dictionary, persist one feedback row, feed one update to the
recommendation model and replace the buttons with a rated indicator.
`userId` is the database id of the (possibly just created) user row. -/
def handle_listing_feedback (cache : String → Option Listing) (userId : Nat)
    (listingId : String) (action : String) : FeedbackResult :=
  match cache listingId with
  | none =>
      { replies := [listingNotFoundMsg], records := [], modelUpdates := [],
        rated := false }
  | some listing =>
      let fd := buildFeedbackData listingId listing
      let liked := action == "like"
      let row := ListingFeedback.from_listing fd userId liked
      { replies := [feedbackThanksMsg]
        records := [row]
        modelUpdates := [(fd, liked)]
        rated := true }

lemma normalizeItem_eq_none {location : String} {it : Item} :
    normalizeItem location it = none ↔ parse_price it.price = none := by
  unfold normalizeItem
  cases parse_price it.price <;> simp

lemma price_of_normalizeItem {location : String} {it : Item} {l : Listing}
    (h : normalizeItem location it = some l) :
    parse_price it.price = some l.price := by
  unfold normalizeItem at h
  cases hp : parse_price it.price with
  | none => rw [hp] at h; exact absurd h (by simp)
  | some p =>
      rw [hp] at h
      simp only [Option.some.injEq] at h
      subst h
      rfl

/-- C1: in the check-out step (a check-in date is recorded), a calendar
date selection at or before the check-in date is rejected with an alert,
the collected criteria are untouched and the handler returns the
check-out state; a selection strictly after the check-in date records
the check-out date and moves the conversation to the guests step. -/
theorem checkout_selection_guard (today : Date) (ud : UserData) (d0 d : Date)
    (h0 : ud.checkin_date = some d0) :
    (Date.leb d d0 = true →
      handle_calendar today ud (CalEvent.cal d) =
        { ud := ud, next := some ConvState.selectCheckout, markup := none,
          alert := some checkoutAlertMsg, messages := [] })
  ∧ (Date.leb d d0 = false →
      handle_calendar today ud (CalEvent.cal d) =
        { ud := { ud with checkout_date := some d,
                          dates := some (dateStr d0 ++ " to " ++ dateStr d) },
          next := some ConvState.guests, markup := none, alert := none,
          messages :=
            ["Dates selected Check-in: " ++ dateStr d0 ++ " Check-out: " ++ dateStr d,
             "How many guests will be staying?"] }) := by
  constructor <;> intro h <;> simp [handle_calendar, h0, h]

/-- Witness for `checkout_selection_guard`: selecting the check-in date
itself as check-out is rejected. -/
theorem checkout_selection_guard_witness :
    handle_calendar ⟨2025, 6, 15⟩ { checkin_date := some ⟨2025, 7, 1⟩ }
        (CalEvent.cal ⟨2025, 7, 1⟩) =
      { ud := { checkin_date := some ⟨2025, 7, 1⟩ },
        next := some ConvState.selectCheckout, markup := none,
        alert := some checkoutAlertMsg, messages := [] } :=
  (checkout_selection_guard ⟨2025, 6, 15⟩ { checkin_date := some ⟨2025, 7, 1⟩ }
    ⟨2025, 7, 1⟩ ⟨2025, 7, 1⟩ rfl).1 (by decide)

/-- C6: price parsing in the price-range step.  A bare integer is read
as the maximum with minimum 0; `min-max` splits on the dash; inputs
with no integer or non-integer parts fail to parse and re-prompt with
the conversation state unchanged; an inverted range like `200-100` is
accepted as-is, producing `(200, 100)` without any rejection. -/
theorem price_text_parsing :
    parsePriceText "200" = some (0, 200)
  ∧ parsePriceText "100-200" = some (100, 200)
  ∧ parsePriceText "200-100" = some (200, 100)
  ∧ parsePriceText "abc" = none
  ∧ parsePriceText "10-x" = none
  ∧ (∀ (c : Criteria) (text : String) (wire : SearchWire),
       parsePriceText text = none →
       price_range_step c text wire = (ConvState.priceRange, [priceRepromptMsg])) := by
  refine ⟨by decide, by decide, by decide, by decide, by decide, ?_⟩
  intro c text wire h
  simp [price_range_step, h]

/-- Witness for `price_text_parsing`: the malformed input `abc`
re-prompts and stays in the price-range state. -/
theorem price_text_parsing_witness :
    price_range_step ⟨"Paris", ⟨2025, 7, 1⟩, ⟨2025, 7, 5⟩, 2, []⟩ "abc"
        SearchWire.raises = (ConvState.priceRange, [priceRepromptMsg]) :=
  price_text_parsing.2.2.2.2.2 ⟨"Paris", ⟨2025, 7, 1⟩, ⟨2025, 7, 5⟩, 2, []⟩
    "abc" SearchWire.raises (by decide)

/-- C7: feedback on a listing id that is absent from the session's
snapshot cache only surfaces an informational message: no feedback row
is written and no model update happens. -/
theorem feedback_unknown_listing (cache : String → Option Listing)
    (userId : Nat) (listingId action : String)
    (h : cache listingId = none) :
    handle_listing_feedback cache userId listingId action =
      { replies := [listingNotFoundMsg], records := [], modelUpdates := [],
        rated := false } := by
  simp [handle_listing_feedback, h]

/-- Witness for `feedback_unknown_listing`: an empty cache. -/
theorem feedback_unknown_listing_witness :
    handle_listing_feedback (fun _ => none) 1 "123" "like" =
      { replies := [listingNotFoundMsg], records := [], modelUpdates := [],
        rated := false } :=
  feedback_unknown_listing (fun _ => none) 1 "123" "like" rfl

/-- C9: in the amenities step, a toggle event flips exactly the
membership of its key, two toggles of the same key restore the original
selection, and the handler stays in the amenities state. -/
theorem amenity_toggle_involution (s : Finset String) (key : String) :
    amenity_callback (some s) (AmenityEvent.toggle key) =
      (toggleAmenity s key, ConvState.amenities)
  ∧ toggleAmenity (toggleAmenity s key) key = s
  ∧ (key ∈ toggleAmenity s key ↔ key ∉ s)
  ∧ (∀ k, k ≠ key → (k ∈ toggleAmenity s key ↔ k ∈ s)) := by
  refine ⟨rfl, ?_, ?_, ?_⟩
  · by_cases h : key ∈ s
    · simp [toggleAmenity, h, Finset.not_mem_erase, Finset.insert_erase]
    · simp [toggleAmenity, h, Finset.erase_insert]
  · by_cases h : key ∈ s <;> simp [toggleAmenity, h]
  · intro k hk
    by_cases h : key ∈ s <;>
      simp [toggleAmenity, h, Finset.mem_erase, Finset.mem_insert, hk]

/-- Witness for `amenity_toggle_involution`: toggling `wifi` twice from
the empty selection restores the empty selection, and the first toggle
leaves `pool` untouched. -/
theorem amenity_toggle_involution_witness :
    toggleAmenity (toggleAmenity ∅ "wifi") "wifi" = ∅
  ∧ ("pool" ∈ toggleAmenity ∅ "wifi" ↔ "pool" ∈ (∅ : Finset String)) :=
  ⟨(amenity_toggle_involution ∅ "wifi").2.1,
   (amenity_toggle_involution ∅ "wifi").2.2.2 "pool" (by decide)⟩

/-- C8 counterexample: the persisted feedback row is not an exact copy
of the cached snapshot's feature values.  For a cached listing with
`bathrooms = 1.5` (a common Airbnb value, exactly representable as a
float), the stored `bathrooms` is the truncated integer 1, because
`ListingFeedback.from_listing` applies `int(...)` to match the
`Integer` column of the schema. -/
theorem feedback_copy_counterexample :
    ((handle_listing_feedback
        (fun l => if l = "42" then
            some { title := "Loft", price := 120, rating := mkRat 9 2,
                   reviews := 10, location := "Paris", url := "u",
                   bedrooms := 2, bathrooms := mkRat 3 2, max_guests := 4,
                   amenities := [] }
          else none)
        7 "42" "like").records.map (fun r => r.bathrooms)) = [1]
  ∧ ((1 : Int) : ℚ) ≠ mkRat 3 2 := by
  constructor
  · decide
  · decide

/-- C8 (amended): the persisted feedback row copies the cached
snapshot's feature values at feedback time — `price`, `rating` and the
three (always 0) score fields exactly, `bedrooms` and `bathrooms`
truncated toward zero to fit their `Integer` columns.  The row is a
pure function of the snapshot value at feedback time, so later changes
to the listing or the snapshot cannot alter it. -/
theorem feedback_copies_features (cache : String → Option Listing)
    (userId : Nat) (listingId action : String) (listing : Listing)
    (h : cache listingId = some listing) :
    (handle_listing_feedback cache userId listingId action).records =
      [{ user_id := userId, listing_id := listingId,
         liked := action == "like",
         price := (listing.price : ℚ),
         bedrooms := pyTrunc listing.bedrooms,
         bathrooms := pyTrunc listing.bathrooms,
         rating := listing.rating,
         location_score := 0, cleanliness_score := 0, value_score := 0 }] := by
  simp [handle_listing_feedback, h, buildFeedbackData, ListingFeedback.from_listing]

/-- Witness for `feedback_copies_features` at a concrete snapshot. -/
theorem feedback_copies_features_witness :
    (handle_listing_feedback
        (fun l => if l = "7" then
            some { title := "Cabin", price := 80, rating := 4,
                   reviews := 3, location := "Oslo", url := "v",
                   bedrooms := 1, bathrooms := 1, max_guests := 2,
                   amenities := [] }
          else none)
        2 "7" "dislike").records =
      [{ user_id := 2, listing_id := "7", liked := ("dislike" == "like"),
         price := ((80 : Int) : ℚ), bedrooms := pyTrunc 1,
         bathrooms := pyTrunc 1, rating := (4 : ℚ),
         location_score := 0, cleanliness_score := 0, value_score := 0 }] :=
  feedback_copies_features
    (fun l => if l = "7" then
        some { title := "Cabin", price := 80, rating := 4,
               reviews := 3, location := "Oslo", url := "v",
               bedrooms := 1, bathrooms := 1, max_guests := 2,
               amenities := [] }
      else none)
    2 "7" "dislike"
    { title := "Cabin", price := 80, rating := 4, reviews := 3,
      location := "Oslo", url := "v", bedrooms := 1, bathrooms := 1,
      max_guests := 2, amenities := [] }
    (by decide)

/-- C3 counterexample: a collaborator failure during search execution
does not keep the conversation in the price-range state.  With a
non-success HTTP status, `AirbnbAPI.search_listings` swallows the
failure into an empty result list, and `AirbnbBot.price_range` then
ends the conversation (`ConversationHandler.END`, i.e. Completed) with
the no-results message instead of staying in `AwaitingPriceRange`. -/
theorem search_failure_counterexample :
    search_listings "Paris"
        (SearchWire.status 500 (RespBody.ok [{ price := some ⟨[⟨"$171 x 3 nights"⟩]⟩ }])) = []
  ∧ (price_range_step ⟨"Paris", ⟨2025, 7, 1⟩, ⟨2025, 7, 5⟩, 2, []⟩ "100-200"
        (SearchWire.status 500 (RespBody.ok [{ price := some ⟨[⟨"$171 x 3 nights"⟩]⟩ }]))).1 =
      ConvState.finished
  ∧ ConvState.finished ≠ ConvState.priceRange := by
  refine ⟨by decide, by decide, by decide⟩

/-- C3 (amended): every listings-search collaborator failure (request
exception, non-200 status, undecodable body) is caught inside
`search_listings` and collapsed to the empty listing list; the bot then
surfaces the no-results message to the user and the conversation
transitions to Completed — it does not remain in the price-range
state.  (Only an exception escaping inside the bot's own handler is
answered with a retry prompt that keeps the price-range state.) -/
theorem search_failure_swallowed (c : Criteria) (text : String)
    (mn mx : Int) (wire : SearchWire)
    (hparse : parsePriceText text = some (mn, mx))
    (hfail : wire = SearchWire.raises ∨
      (∃ code body, wire = SearchWire.status code body ∧ code ≠ 200) ∨
      (∃ code, wire = SearchWire.status code RespBody.badJson)) :
    search_listings c.location wire = [] ∧
    price_range_step c text wire = (ConvState.finished, [noResultsMsg]) := by
  have hempty : search_listings c.location wire = [] := by
    rcases hfail with rfl | ⟨code, body, rfl, hc⟩ | ⟨code, rfl⟩
    · rfl
    · simp [search_listings, hc]
    · by_cases h200 : code = 200 <;> simp [search_listings, h200]
  refine ⟨hempty, ?_⟩
  simp [price_range_step, hparse, hempty]

/-- Witness for `search_failure_swallowed`: a request exception with a
well-formed price text. -/
theorem search_failure_swallowed_witness :
    search_listings "Paris" SearchWire.raises = [] ∧
    price_range_step ⟨"Paris", ⟨2025, 7, 1⟩, ⟨2025, 7, 5⟩, 2, []⟩ "100-200"
        SearchWire.raises = (ConvState.finished, [noResultsMsg]) :=
  search_failure_swallowed ⟨"Paris", ⟨2025, 7, 1⟩, ⟨2025, 7, 5⟩, 2, []⟩
    "100-200" 100 200 SearchWire.raises (by decide) (Or.inl rfl)

/-- C10: an item whose price cannot be parsed is silently dropped
during normalization — the returned list is the same as if the item
were filtered out beforehand, every returned listing's integer price
stems from a successful parse of some item, and a response whose items
all lack parseable prices produces exactly the output of an empty
result array. -/
theorem unparseable_prices_omitted (location : String) (items : List Item) :
    listingsOf location items =
      listingsOf location (items.filter (fun it => (parse_price it.price).isSome))
  ∧ (∀ (it : Item) (rest : List Item), parse_price it.price = none →
       listingsOf location (it :: rest) = listingsOf location rest)
  ∧ (∀ l ∈ search_results location items,
       ∃ it ∈ items, parse_price it.price = some l.price)
  ∧ ((∀ it ∈ items, parse_price it.price = none) →
       search_results location items = [] ∧
       search_results location ([] : List Item) = []) := by
  refine ⟨?_, ?_, ?_, ?_⟩
  · induction items with
    | nil => rfl
    | cons a t ih =>
        by_cases h : (parse_price a.price).isSome
        · have hn : ∃ l, normalizeItem location a = some l := by
            unfold normalizeItem
            obtain ⟨p, hp⟩ := Option.isSome_iff_exists.mp h
            rw [hp]
            exact ⟨_, rfl⟩
          obtain ⟨l, hl⟩ := hn
          simp [listingsOf, List.filter_cons, h, List.filterMap_cons, hl] at ih ⊢
          exact ih
        · have hnone : normalizeItem location a = none :=
            normalizeItem_eq_none.mpr (Option.not_isSome_iff_eq_none.mp h)
          simp [listingsOf, List.filter_cons, h, List.filterMap_cons, hnone] at ih ⊢
          exact ih
  · intro it rest h
    simp [listingsOf, List.filterMap_cons, normalizeItem_eq_none.mpr h]
  · intro l hl
    unfold search_results at hl
    by_cases hi : items = []
    · simp [hi] at hl
    · rw [if_neg hi] at hl
      have hmem : l ∈ (listingsOf location items).mergeSort priceLe :=
        List.mem_of_mem_take hl
      rw [List.mem_mergeSort] at hmem
      rw [listingsOf, List.mem_filterMap] at hmem
      obtain ⟨it, hit, hn⟩ := hmem
      exact ⟨it, hit, price_of_normalizeItem hn⟩
  · intro h
    have hnil : listingsOf location items = [] := by
      rw [listingsOf, List.filterMap_eq_nil_iff]
      intro it hit
      exact normalizeItem_eq_none.mpr (h it hit)
    constructor
    · unfold search_results
      by_cases hi : items = []
      · simp [hi]
      · rw [if_neg hi, hnil]
        simp
    · rfl

/-- Witness for `unparseable_prices_omitted`: a response whose two
items both lack parseable prices is indistinguishable from an empty
result array. -/
theorem unparseable_prices_omitted_witness :
    search_results "Paris" [{ price := none }, { price := some ⟨[⟨"total"⟩]⟩ }] = []
  ∧ search_results "Paris" ([] : List Item) = [] :=
  (unparseable_prices_omitted "Paris"
    [{ price := none }, { price := some ⟨[⟨"total"⟩]⟩ }]).2.2.2 (by decide)

lemma priceLe_trans : ∀ a b c : Listing,
    priceLe a b = true → priceLe b c = true → priceLe a c = true := by
  intro a b c hab hbc
  simp [priceLe] at hab hbc ⊢
  omega

lemma priceLe_total : ∀ a b : Listing, (priceLe a b || priceLe b a) = true := by
  intro a b
  simp [priceLe]
  omega

/-- C5: the listing list returned to the user contains at most 5
listings, sorted ascending by price, and together with the omitted
remainder of the sorted normalized list it is a permutation of all
normalized listings, every shown listing being at most as expensive as
every omitted one; with 7 parseable listings, exactly 5 are shown. -/
theorem top5_cheapest_sorted (location : String) (items : List Item) :
    (search_results location items).length ≤ 5
  ∧ List.Sorted (fun a b : Listing => a.price ≤ b.price)
      (search_results location items)
  ∧ (search_results location items ++
      ((listingsOf location items).mergeSort priceLe).drop 5).Perm
      (listingsOf location items)
  ∧ (∀ a ∈ search_results location items,
      ∀ b ∈ ((listingsOf location items).mergeSort priceLe).drop 5,
        a.price ≤ b.price)
  ∧ ((listingsOf location items).length = 7 →
      (search_results location items).length = 5) := by
  have hsortedS : List.Pairwise (fun a b : Listing => a.price ≤ b.price)
      ((listingsOf location items).mergeSort priceLe) := by
    have h := List.sorted_mergeSort priceLe_trans priceLe_total
      (listingsOf location items)
    exact h.imp (fun hab => by simp [priceLe] at hab; exact hab)
  have hperm : ((listingsOf location items).mergeSort priceLe).Perm
      (listingsOf location items) :=
    List.mergeSort_perm (listingsOf location items) priceLe
  by_cases hi : items = []
  · have hL : listingsOf location items = [] := by
      rw [hi]; rfl
    refine ⟨?_, ?_, ?_, ?_, ?_⟩ <;>
      simp [search_results, hi, hL, listingsOf, List.Sorted]
  · have hres : search_results location items =
        ((listingsOf location items).mergeSort priceLe).take 5 := by
      rw [search_results, if_neg hi]
    refine ⟨?_, ?_, ?_, ?_, ?_⟩
    · rw [hres]
      exact List.length_take_le 5 _
    · rw [hres]
      exact hsortedS.sublist (List.take_sublist 5 _)
    · rw [hres, List.take_append_drop]
      exact hperm
    · intro a ha b hb
      rw [hres] at ha
      have hp := hsortedS
      rw [← List.take_append_drop 5
        ((listingsOf location items).mergeSort priceLe)] at hp
      exact (List.pairwise_append.mp hp).2.2 a ha b hb
    · intro h7
      rw [hres, List.length_take, List.length_mergeSort, h7]
      decide

/-- Witness for `top5_cheapest_sorted`: a response with 7 parseable
listings yields exactly 5 shown listings. -/
theorem top5_cheapest_sorted_witness :
    (search_results "Paris"
      [{ price := some ⟨[⟨"$40 x 2 nights"⟩]⟩ },
       { price := some ⟨[⟨"$10 x 2 nights"⟩]⟩ },
       { price := some ⟨[⟨"$70 x 2 nights"⟩]⟩ },
       { price := some ⟨[⟨"$20 x 2 nights"⟩]⟩ },
       { price := some ⟨[⟨"$60 x 2 nights"⟩]⟩ },
       { price := some ⟨[⟨"$30 x 2 nights"⟩]⟩ },
       { price := some ⟨[⟨"$50 x 2 nights"⟩]⟩ }]).length = 5 :=
  (top5_cheapest_sorted "Paris"
    [{ price := some ⟨[⟨"$40 x 2 nights"⟩]⟩ },
     { price := some ⟨[⟨"$10 x 2 nights"⟩]⟩ },
     { price := some ⟨[⟨"$70 x 2 nights"⟩]⟩ },
     { price := some ⟨[⟨"$20 x 2 nights"⟩]⟩ },
     { price := some ⟨[⟨"$60 x 2 nights"⟩]⟩ },
     { price := some ⟨[⟨"$30 x 2 nights"⟩]⟩ },
     { price := some ⟨[⟨"$50 x 2 nights"⟩]⟩ }]).2.2.2.2 (by decide)

lemma isPastDay_eq_ltb (y m day : Nat) (t : Date) :
    isPastDay y m day t = Date.ltb ⟨y, m, day⟩ t := by
  unfold isPastDay Date.ltb
  rw [decide_eq_decide]
  dsimp only
  omega

lemma navOf_dayCell (y m : Nat) (sel : Option Date) (t : Date) (day : Nat) :
    navOf (dayCell y m sel t day) = none := by
  unfold dayCell
  split
  · rfl
  · split
    · rfl
    · rfl

lemma calOf_dayCell (y m : Nat) (sel : Option Date) (t : Date) (day : Nat)
    (d : Date) (h : calOf (dayCell y m sel t day) = some d) :
    d = ⟨y, m, day⟩ ∧ isPastDay y m day t = false := by
  unfold dayCell at h
  split at h
  · exact absurd h (by simp [calOf])
  · split at h
    · exact absurd h (by simp [calOf])
    · next hpast =>
        simp [calOf] at h
        exact ⟨h.symm, by simpa using hpast⟩

lemma filterMap_navOf_weeks (y m : Nat) (sel : Option Date) (t : Date) :
    (((monthcalendar y m).map (fun week =>
        week.map (dayCell y m sel t))).flatten.filterMap navOf) = [] := by
  rw [List.filterMap_eq_nil_iff]
  intro b hb
  rw [List.mem_flatten] at hb
  obtain ⟨row, hrow, hbrow⟩ := hb
  rw [List.mem_map] at hrow
  obtain ⟨week, _, rfl⟩ := hrow
  rw [List.mem_map] at hbrow
  obtain ⟨day, _, rfl⟩ := hbrow
  exact navOf_dayCell y m sel t day

lemma mem_navTargets (y m : Nat) (sel : Option Date) (t : Date)
    (q : Nat × Nat) :
    q ∈ navTargetsOf (create_calendar y m sel t) ↔
      (canGoPrev y m t = true ∧ q = prevYearMonth y m) ∨
        q = nextYearMonth y m := by
  unfold navTargetsOf create_calendar
  rw [List.flatten_append, List.flatten_append, List.flatten_append,
      List.filterMap_append, List.filterMap_append, List.filterMap_append,
      filterMap_navOf_weeks]
  by_cases hc : canGoPrev y m t <;>
    simp [navRow, prevButton, nextButton, weekDayRow, navOf, hc, monthName,
      Prod.ext_iff] <;>
    omega

lemma mem_calTargets (y m : Nat) (sel : Option Date) (t : Date) (d : Date)
    (h : d ∈ calTargetsOf (create_calendar y m sel t)) :
    d.year = y ∧ d.month = m ∧ isPastDay y m d.day t = false := by
  unfold calTargetsOf create_calendar at h
  rw [List.flatten_append, List.flatten_append, List.flatten_append,
      List.filterMap_append, List.filterMap_append,
      List.filterMap_append] at h
  have hhead : ∀ b ∈ ([[(⟨monthName m ++ " " ++ toString y, CbData.ignore⟩ :
      Button)]] : Keyboard).flatten, calOf b = none := by
    intro b hb
    simp at hb
    subst hb
    rfl
  have hwd : ∀ b ∈ ([weekDayRow] : Keyboard).flatten, calOf b = none := by
    intro b hb
    simp [weekDayRow] at hb
    rcases hb with rfl | rfl | rfl | rfl | rfl | rfl | rfl <;> rfl
  have hnav : ∀ b ∈ ([navRow y m t] : Keyboard).flatten, calOf b = none := by
    intro b hb
    simp [navRow] at hb
    rcases hb with rfl | rfl
    · unfold prevButton
      split
      · rfl
      · rfl
    · rfl
  rw [List.filterMap_eq_nil_iff.mpr hhead,
      List.filterMap_eq_nil_iff.mpr hnav,
      List.filterMap_eq_nil_iff.mpr hwd] at h
  simp only [List.nil_append, List.append_nil, List.mem_append,
    List.not_mem_nil, false_or, or_false] at h
  rw [List.mem_filterMap] at h
  obtain ⟨b, hb, hcal⟩ := h
  rw [List.mem_flatten] at hb
  obtain ⟨row, hrow, hbrow⟩ := hb
  rw [List.mem_map] at hrow
  obtain ⟨week, _, rfl⟩ := hrow
  rw [List.mem_map] at hbrow
  obtain ⟨day, _, rfl⟩ := hbrow
  obtain ⟨rfl, hpast⟩ := calOf_dayCell y m sel t day d hcal
  exact ⟨rfl, rfl, hpast⟩

/-- C4: for every rendered calendar, a day cell is disabled (ignore
token) exactly when its date is strictly before today; an enabled day
cell carries the selection token of its concrete year-month-day date,
and every date carried by a day cell is not before today. -/
theorem day_cells_disabled_iff_past (year month : Nat) (sel : Option Date)
    (today : Date) :
    ∀ week ∈ monthcalendar year month, ∀ day ∈ week, day ≠ 0 →
      (dayCell year month sel today day ∈
        (create_calendar year month sel today).flatten)
    ∧ ((dayCell year month sel today day).cb = CbData.ignore ↔
        Date.ltb ⟨year, month, day⟩ today = true)
    ∧ (Date.ltb ⟨year, month, day⟩ today = false →
        (dayCell year month sel today day).cb =
          CbData.cal ⟨year, month, day⟩)
    ∧ (∀ d : Date, (dayCell year month sel today day).cb = CbData.cal d →
        d = ⟨year, month, day⟩ ∧ Date.ltb d today = false) := by
  intro week hweek day hday h0
  refine ⟨?_, ?_, ?_, ?_⟩
  · rw [List.mem_flatten]
    refine ⟨week.map (dayCell year month sel today), ?_,
      List.mem_map_of_mem _ hday⟩
    unfold create_calendar
    simp only [List.mem_append, List.mem_singleton]
    left
    right
    exact List.mem_map_of_mem _ hweek
  · unfold dayCell
    rw [if_neg h0, isPastDay_eq_ltb]
    by_cases hp : Date.ltb ⟨year, month, day⟩ today = true
    · simp [hp]
    · simp [hp]
  · intro hp
    unfold dayCell
    rw [if_neg h0, isPastDay_eq_ltb, hp]
    simp
  · intro d hd
    have h := calOf_dayCell year month sel today day d (by rw [calOf, hd])
    rw [isPastDay_eq_ltb] at h
    exact ⟨h.1, h.1 ▸ h.2⟩

/-- Witness for `day_cells_disabled_iff_past`: in the June 2025
calendar seen on June 15, the cell for June 14 is disabled and the cell
for June 16 is enabled and carries its date. -/
theorem day_cells_disabled_iff_past_witness :
    ((dayCell 2025 6 none ⟨2025, 6, 15⟩ 14).cb = CbData.ignore ↔
      Date.ltb ⟨2025, 6, 14⟩ ⟨2025, 6, 15⟩ = true)
  ∧ (dayCell 2025 6 none ⟨2025, 6, 15⟩ 16).cb = CbData.cal ⟨2025, 6, 16⟩ :=
  ⟨((day_cells_disabled_iff_past 2025 6 none ⟨2025, 6, 15⟩
      [9, 10, 11, 12, 13, 14, 15] (by decide) 14 (by decide) (by decide)).2.1),
   ((day_cells_disabled_iff_past 2025 6 none ⟨2025, 6, 15⟩
      [16, 17, 18, 19, 20, 21, 22] (by decide) 16 (by decide) (by decide)).2.2.1
      (by decide))⟩

/-- C2: a press on the previous-month cell when the previous month is
strictly before the current month delivers the ignore token (the cell
is disabled exactly in that case), the ignore token leaves the user
data, the conversation state and the displayed keyboard unchanged, and
consequently every calendar month reachable in a session is never
strictly before the month containing today. -/
theorem nav_never_before_current (today : Date) :
    (∀ year month, ((prevButton year month today).cb = CbData.ignore ↔
        monthLt (prevYearMonth year month) (today.year, today.month)))
  ∧ (∀ ud, handle_calendar today ud CalEvent.ignore =
      { ud := ud, next := none, markup := none, alert := none, messages := [] })
  ∧ (∀ p, reachableCalendar today p →
      ¬ monthLt p (today.year, today.month)) := by
  refine ⟨?_, fun ud => rfl, ?_⟩
  · intro y m
    unfold prevButton
    by_cases hc : canGoPrev y m today
    · rw [if_pos hc]
      unfold canGoPrev at hc
      simp only [Bool.or_eq_true, Bool.and_eq_true, decide_eq_true_eq] at hc
      simp only [monthLt]
      constructor
      · intro h
        exact absurd h (by simp)
      · intro h
        omega
    · rw [if_neg hc]
      unfold canGoPrev at hc
      simp only [Bool.or_eq_true, Bool.and_eq_true, decide_eq_true_eq] at hc
      push_neg at hc
      simp only [monthLt]
      constructor
      · intro _
        omega
      · intro _
        trivial
  · intro p h
    induction h with
    | init => simp [monthLt]
    | @nav p q hp hq ih =>
        rw [mem_navTargets] at hq
        rcases hq with ⟨hc, rfl⟩ | rfl
        · unfold canGoPrev at hc
          simp only [Bool.or_eq_true, Bool.and_eq_true, decide_eq_true_eq] at hc
          simp only [monthLt] at *
          omega
        · simp only [monthLt] at ih ⊢
          unfold nextYearMonth
          by_cases h12 : p.2 < 12 <;> simp [h12] <;> omega
    | @select p d hp hd ih =>
        obtain ⟨hy, hm, hpast⟩ := mem_calTargets p.1 p.2 none today d hd
        rw [← hy, ← hm] at hpast
        have hpast2 : ¬ (d.year < today.year ∨
            (d.year = today.year ∧ d.month < today.month) ∨
            (d.year = today.year ∧ d.month = today.month ∧
              d.day < today.day)) := by
          intro hcontra
          rw [isPastDay] at hpast
          simp only [decide_eq_false_iff_not] at hpast
          exact hpast hcontra
        simp only [monthLt] at ih ⊢
        unfold nextDay
        by_cases h1 : d.day < daysInMonth d.year d.month
        · simp only [if_pos h1]
          omega
        · rw [if_neg h1]
          by_cases h2 : d.month < 12
          · simp only [if_pos h2]
            omega
          · simp only [if_neg h2]
            omega

/-- Witness for `nav_never_before_current`: from the June 2025
calendar, the only reachable neighbouring month via navigation is July
2025, which is not before June 2025. -/
theorem nav_never_before_current_witness :
    ¬ monthLt (2025, 7) (2025, 6) :=
  (nav_never_before_current ⟨2025, 6, 15⟩).2.2 (2025, 7)
    (reachableCalendar.nav reachableCalendar.init (by decide))
